import Mathlib

/-!
Verification of the RISC-V TLB invalidation engine (arch/riscv/mm/tlbflush.c).

The C file is shallowly embedded below.  Machine integers (C `unsigned long`
on riscv64) are natural numbers reduced modulo `W = 2^64` exactly where the C
arithmetic wraps.  Side-effecting primitives (the `sfence.vma` instructions,
the IPI and SBI broadcast backends, the CSR writes of the Smokewagon fill
routine) are embedded as emitted event traces, so that "exactly these
invalidations, in this order" is a provable list equality.
-/

namespace TlbFlush

/-- The modulus of the 64-bit `unsigned long` arithmetic (2 ^ 64). -/
def W : ℕ := 18446744073709551616

/-- PAGE_SHIFT on riscv64 (asm/page.h): 4 KiB base pages. -/
def PAGE_SHIFT : ℕ := 12

/-- PAGE_SIZE = 1 << PAGE_SHIFT. -/
def PAGE_SIZE : ℕ := 4096

/-- FLUSH_TLB_NO_ASID, the "no identifier, use the global flush" sentinel
(asm/tlbflush.h defines it as `(unsigned long)-1`, i.e. 2^64 - 1). -/
def FLUSH_TLB_NO_ASID : ℕ := 18446744073709551615

/-- FLUSH_TLB_MAX_SIZE, the "whole address space" size sentinel
(asm/tlbflush.h defines it as `(unsigned long)-1`, i.e. 2^64 - 1). -/
def FLUSH_TLB_MAX_SIZE : ℕ := 18446744073709551615

/-- One hardware invalidation issued on the current processor: either a full
flush scoped to an identifier (`sfence.vma x0, asid`, or a global
`local_flush_tlb_all` when the identifier is the no-ASID sentinel), or a
single-page flush (`sfence.vma addr, asid` / `local_flush_tlb_page`). -/
inductive FlushEvent where
  | all (asid : ℕ)
  | page (addr asid : ℕ)
deriving DecidableEq

/-- local_flush_tlb_all_asid: one full flush for the given identifier scope
(both the `sfence.vma x0, asid` branch and the `local_flush_tlb_all` branch
issue exactly one full-flush instruction). -/
def local_flush_tlb_all_asid (asid : ℕ) : List FlushEvent :=
  [FlushEvent.all asid]

/-- local_flush_tlb_page_asid: one single-page flush at the given address. -/
def local_flush_tlb_page_asid (addr asid : ℕ) : List FlushEvent :=
  [FlushEvent.page addr asid]

/-- tlb_flush_all_threshold: the static default is 64. -/
def tlb_flush_all_threshold : ℕ := 64

/-- The loop of local_flush_tlb_range_threshold_asid: `n` iterations of
`local_flush_tlb_page_asid(start, asid); start += stride;`, where the
`start += stride` update wraps modulo 2^64. -/
def flushLoop (stride asid : ℕ) : ℕ → ℕ → List FlushEvent
  | _, 0 => []
  | start, n + 1 =>
      FlushEvent.page start asid :: flushLoop stride asid ((start + stride) % W) n

/-- DIV_ROUND_UP(size, stride) in C `unsigned long` arithmetic:
`(size + stride - 1) / stride`, where the sum wraps modulo 2^64 (the `- 1`
is the two's-complement addition of 2^64 - 1). -/
def nr_ptes_in_range (size stride : ℕ) : ℕ :=
  ((size + stride + (W - 1)) % W) / stride

/-- local_flush_tlb_range_threshold_asid: flush all if the page count exceeds
the threshold, otherwise iterate page by page. -/
def local_flush_tlb_range_threshold_asid (start size stride asid threshold : ℕ) :
    List FlushEvent :=
  if nr_ptes_in_range size stride > threshold then
    local_flush_tlb_all_asid asid
  else
    flushLoop stride asid start (nr_ptes_in_range size stride)

/-- local_flush_tlb_range_asid: the single-page and whole-space short circuits
in source order, then the counting path with the global threshold. -/
def local_flush_tlb_range_asid (start size stride asid : ℕ) : List FlushEvent :=
  if size ≤ stride then
    local_flush_tlb_page_asid start asid
  else if size = FLUSH_TLB_MAX_SIZE then
    local_flush_tlb_all_asid asid
  else
    local_flush_tlb_range_threshold_asid start size stride asid tlb_flush_all_threshold

/-- C `unsigned long` subtraction `a - b` for operands below 2^64: wraps
modulo 2^64 when `b > a`. -/
def usub (a b : ℕ) : ℕ :=
  ((W + a) - b) % W

/-- local_flush_tlb_kernel_range: flush a kernel range without broadcasting,
with base page stride and the no-ASID identifier. -/
def local_flush_tlb_kernel_range (start e : ℕ) : List FlushEvent :=
  local_flush_tlb_range_asid start (usub e start) PAGE_SIZE FLUSH_TLB_NO_ASID

/-- The page-flush loop unfolds to the list of addresses
`(start + i * stride) % 2^64` for `i < n`, provided `start < 2^64`. -/
theorem flushLoop_eq_map (stride asid : ℕ) :
    ∀ (n start : ℕ), start < W →
      flushLoop stride asid start n =
        (List.range n).map (fun i => FlushEvent.page ((start + i * stride) % W) asid) := by
  intro n
  induction n with
  | zero => intro start _; simp [flushLoop]
  | succ n ih =>
      intro start hs
      rw [flushLoop, List.range_succ_eq_map, List.map_cons, List.map_map]
      have hmod : (start + stride) % W < W := Nat.mod_lt _ (by norm_num [W])
      rw [ih ((start + stride) % W) hmod]
      congr 1
      · simp [Nat.mod_eq_of_lt hs]
      · apply List.map_congr_left
        intro i _
        simp only [Function.comp_apply, Nat.mod_add_mod, FlushEvent.page.injEq, and_true]
        congr 1
        rw [Nat.succ_mul]
        ring

/-- C1: for every call to local_flush_tlb_range_threshold_asid with positive
stride and non-wrapping arithmetic, the operation count equals
ceil(size / stride) (characterized by the two bounds below together with the
closed form); a count above the threshold issues exactly one full flush for
the identifier and no per-page flushes; otherwise exactly count single-page
flushes are issued, at start, start+stride, start+2*stride, ..., and no
others. -/
theorem C1_flush_range_bounded (start size stride asid threshold : ℕ)
    (hstride : 0 < stride) (hstart : start < W)
    (hnowrap : size + stride ≤ W) (haddr : start + size ≤ W) :
    nr_ptes_in_range size stride = (size + stride - 1) / stride ∧
    size ≤ nr_ptes_in_range size stride * stride ∧
    nr_ptes_in_range size stride * stride < size + stride ∧
    (nr_ptes_in_range size stride > threshold →
      local_flush_tlb_range_threshold_asid start size stride asid threshold =
        [FlushEvent.all asid]) ∧
    (nr_ptes_in_range size stride ≤ threshold →
      local_flush_tlb_range_threshold_asid start size stride asid threshold =
        (List.range (nr_ptes_in_range size stride)).map
          (fun i => FlushEvent.page (start + i * stride) asid)) := by
  have hW : (0 : ℕ) < W := by norm_num [W]
  have hclosed : nr_ptes_in_range size stride = (size + stride - 1) / stride := by
    unfold nr_ptes_in_range
    have h1 : size + stride + (W - 1) = (size + stride - 1) + W := by
      have : 1 ≤ size + stride := by omega
      omega
    rw [h1, Nat.add_mod_right, Nat.mod_eq_of_lt (by omega)]
  have hdm : (size + stride - 1) / stride * stride + (size + stride - 1) % stride
      = size + stride - 1 := Nat.div_add_mod' _ _
  have hmlt : (size + stride - 1) % stride < stride := Nat.mod_lt _ hstride
  have hceil_lo : size ≤ nr_ptes_in_range size stride * stride := by
    rw [hclosed]; omega
  have hceil_hi : nr_ptes_in_range size stride * stride < size + stride := by
    rw [hclosed]; omega
  refine ⟨hclosed, hceil_lo, hceil_hi, ?_, ?_⟩
  · intro hgt
    unfold local_flush_tlb_range_threshold_asid
    rw [if_pos hgt]
    rfl
  · intro hle
    unfold local_flush_tlb_range_threshold_asid
    rw [if_neg (by omega)]
    rw [flushLoop_eq_map stride asid (nr_ptes_in_range size stride) start hstart]
    apply List.map_congr_left
    intro i hi
    rw [List.mem_range] at hi
    have hbound : start + i * stride < W := by
      have h1 : i * stride + stride ≤ nr_ptes_in_range size stride * stride := by
        have : i + 1 ≤ nr_ptes_in_range size stride := hi
        calc i * stride + stride = (i + 1) * stride := by ring
        _ ≤ nr_ptes_in_range size stride * stride := Nat.mul_le_mul_right _ this
      omega
    rw [Nat.mod_eq_of_lt hbound]

/-- Witness for C1: ten pages of 4 KiB at 0x1000 with threshold 64 resolve to
exactly ten page flushes at consecutive stride-spaced addresses. -/
theorem C1_flush_range_bounded_witness :
    (0 < 4096 ∧ 4096 < W ∧ 40960 + 4096 ≤ W ∧ 4096 + 40960 ≤ W) ∧
    (nr_ptes_in_range 40960 4096 = (40960 + 4096 - 1) / 4096 ∧
     40960 ≤ nr_ptes_in_range 40960 4096 * 4096 ∧
     nr_ptes_in_range 40960 4096 * 4096 < 40960 + 4096 ∧
     (nr_ptes_in_range 40960 4096 > 64 →
       local_flush_tlb_range_threshold_asid 4096 40960 4096 7 64 = [FlushEvent.all 7]) ∧
     (nr_ptes_in_range 40960 4096 ≤ 64 →
       local_flush_tlb_range_threshold_asid 4096 40960 4096 7 64 =
         (List.range (nr_ptes_in_range 40960 4096)).map
           (fun i => FlushEvent.page (4096 + i * 4096) 7))) :=
  ⟨⟨by decide, by decide, by decide, by decide⟩,
   C1_flush_range_bounded 4096 40960 4096 7 64 (by decide) (by decide) (by decide) (by decide)⟩

/-- C2: a size equal to one stride short-circuits local_flush_tlb_range_asid
to exactly one single-page flush, and (for any stride below the sentinel) a
size equal to the whole-address-space sentinel short-circuits to exactly one
full flush for the identifier; neither enters the counting path. -/
theorem C2_short_circuits (start stride asid : ℕ) (h : stride < FLUSH_TLB_MAX_SIZE) :
    local_flush_tlb_range_asid start stride stride asid = [FlushEvent.page start asid] ∧
    local_flush_tlb_range_asid start FLUSH_TLB_MAX_SIZE stride asid = [FlushEvent.all asid] := by
  constructor
  · unfold local_flush_tlb_range_asid
    rw [if_pos (Nat.le_refl stride)]
    rfl
  · unfold local_flush_tlb_range_asid
    rw [if_neg (by omega), if_pos rfl]
    rfl

/-- Witness for C2 at a 4 KiB stride. -/
theorem C2_short_circuits_witness :
    4096 < FLUSH_TLB_MAX_SIZE ∧
    (local_flush_tlb_range_asid 8192 4096 4096 7 = [FlushEvent.page 8192 7] ∧
     local_flush_tlb_range_asid 8192 FLUSH_TLB_MAX_SIZE 4096 7 = [FlushEvent.all 7]) :=
  ⟨by decide, C2_short_circuits 8192 4096 7 (by decide)⟩

/-- C10: a size strictly below the stride, including a zero-length range,
issues exactly one single-page flush at the start address (the comparison is
less-or-equal, so size zero flushes one page rather than nothing); in
particular a zero-length kernel-range request flushes exactly one page. -/
theorem C10_small_size_one_page (start size stride asid k : ℕ) (h : size < stride) :
    local_flush_tlb_range_asid start size stride asid = [FlushEvent.page start asid] ∧
    local_flush_tlb_kernel_range k k = [FlushEvent.page k FLUSH_TLB_NO_ASID] := by
  constructor
  · unfold local_flush_tlb_range_asid
    rw [if_pos (Nat.le_of_lt h)]
    rfl
  · unfold local_flush_tlb_kernel_range
    have hz : usub k k = 0 := by
      unfold usub
      rw [Nat.add_sub_cancel, Nat.mod_self]
    rw [hz]
    unfold local_flush_tlb_range_asid
    rw [if_pos (Nat.zero_le _)]
    rfl

/-- Witness for C10: a zero-length request over a 4 KiB stride flushes exactly
one page. -/
theorem C10_small_size_one_page_witness :
    0 < 4096 ∧
    (local_flush_tlb_range_asid 12288 0 4096 9 = [FlushEvent.page 12288 9] ∧
     local_flush_tlb_kernel_range 12288 12288 =
       [FlushEvent.page 12288 FLUSH_TLB_NO_ASID]) :=
  ⟨by decide, C10_small_size_one_page 12288 0 4096 9 12288 (by decide)⟩

/-- One step taken by the dispatch coordinator __flush_tlb_range: the scoped
processor pin (get_cpu / put_cpu), an invocation of the signal (IPI) broadcast
backend, an invocation of one of the two firmware (SBI) broadcast calls, or a
direct call of the local bounded range flush with the given arguments. -/
inductive DispatchEvent where
  | pinGet (cpuid : ℕ)
  | pinPut
  | ipiBroadcast (targets : Finset ℕ) (asid start size stride : ℕ)
  | sbiAsid (targets : Finset ℕ) (start size asid : ℕ)
  | sbiNoAsid (targets : Finset ℕ) (start size : ℕ)
  | localRange (start size stride asid : ℕ)
deriving DecidableEq

/-- Modelled from the spec: the firmware-mediated broadcast backend
(sbi_remote_sfence_vma_asid lives in arch/riscv/kernel/sbi.c, outside src/).
Per the spec there is an ASID-aware and an ASID-agnostic firmware call and the
one matching the presence of an identifier is issued; an identifier equal to
the no-ASID sentinel means "no identifier". -/
def sbi_remote_sfence_vma_asid (cmask : Finset ℕ) (start size asid : ℕ) :
    List DispatchEvent :=
  if asid = FLUSH_TLB_NO_ASID then
    [DispatchEvent.sbiNoAsid cmask start size]
  else
    [DispatchEvent.sbiAsid cmask start size asid]

/-- The dispatch coordinator __flush_tlb_range.  `cmask` is the target
processor set; `isOnlineMask` records whether the caller passed the
cpu_online_mask object itself (the C code compares the pointers);
`useIpi` is riscv_use_ipi_for_rfence(); `cpuid` is the processor identity
returned by get_cpu().  An empty target set is a no-op.  When the target set
is not the online mask the calling processor is pinned (get_cpu) and the
broadcast decision tests whether any processor other than cpuid is in the
mask (cpumask_any_but(cmask, cpuid) < nr_cpu_ids); for the online mask
broadcast is unconditionally true.  A needed broadcast goes to the IPI
backend or to the firmware call; otherwise the local bounded range flush runs
directly.  The pin, when taken, is dropped (put_cpu) at the very end. -/
def __flush_tlb_range (cmask : Finset ℕ) (isOnlineMask useIpi : Bool)
    (cpuid asid start size stride : ℕ) : List DispatchEvent :=
  if cmask = ∅ then
    []
  else
    (if isOnlineMask then [] else [DispatchEvent.pinGet cpuid]) ++
    (if (if isOnlineMask then true else decide (cmask.erase cpuid ≠ ∅)) then
      (if useIpi then
        [DispatchEvent.ipiBroadcast cmask asid start size stride]
      else
        sbi_remote_sfence_vma_asid cmask start size asid)
    else
      [DispatchEvent.localRange start size stride asid]) ++
    (if isOnlineMask then [] else [DispatchEvent.pinPut])

/-- get_mm_asid: the context identifier of an address space, when the
process-wide ASID allocator (the use_asid_allocator static branch) is
enabled, is the context id masked by asid_mask; otherwise the no-ASID
sentinel. -/
def get_mm_asid (use_asid_allocator : Bool) (asid_mask context_id : ℕ) : ℕ :=
  if use_asid_allocator then context_id &&& asid_mask else FLUSH_TLB_NO_ASID

/-- Whether a dispatch step invokes one of the two broadcast backends. -/
def isBroadcastEvent : DispatchEvent → Bool
  | DispatchEvent.ipiBroadcast _ _ _ _ _ => true
  | DispatchEvent.sbiAsid _ _ _ _ => true
  | DispatchEvent.sbiNoAsid _ _ _ => true
  | _ => false

/-- Whether a dispatch step is a pin acquire or release. -/
def isPinEvent : DispatchEvent → Bool
  | DispatchEvent.pinGet _ => true
  | DispatchEvent.pinPut => true
  | _ => false

/-- Number of broadcast-backend invocations performed while the processor pin
is held, scanning the trace with the given initial pin state. -/
def pinnedBroadcastCount (pinned : Bool) : List DispatchEvent → ℕ
  | [] => 0
  | DispatchEvent.pinGet _ :: rest => pinnedBroadcastCount true rest
  | DispatchEvent.pinPut :: rest => pinnedBroadcastCount false rest
  | e :: rest =>
      (if pinned && isBroadcastEvent e then 1 else 0) + pinnedBroadcastCount pinned rest

/-- C3: a dispatch whose target set is exactly the singleton of the calling
processor (and is not the all-online-processors mask) produces no broadcast
backend invocation at all: the trace is exactly the pin, one direct call of
the local bounded range flush on the calling processor, and the unpin. -/
theorem C3_local_only_no_broadcast (useIpi : Bool) (cpuid asid start size stride : ℕ) :
    __flush_tlb_range {cpuid} false useIpi cpuid asid start size stride =
      [DispatchEvent.pinGet cpuid, DispatchEvent.localRange start size stride asid,
       DispatchEvent.pinPut] ∧
    ∀ e ∈ __flush_tlb_range {cpuid} false useIpi cpuid asid start size stride,
      isBroadcastEvent e = false := by
  have htrace : __flush_tlb_range {cpuid} false useIpi cpuid asid start size stride =
      [DispatchEvent.pinGet cpuid, DispatchEvent.localRange start size stride asid,
       DispatchEvent.pinPut] := by
    unfold __flush_tlb_range
    rw [if_neg (Finset.singleton_ne_empty cpuid)]
    simp [Finset.erase_singleton]
  refine ⟨htrace, ?_⟩
  rw [htrace]
  intro e he
  simp only [List.mem_cons, List.not_mem_nil, or_false] at he
  rcases he with h | h | h <;> subst h <;> rfl

/-- C4: a dispatch whose target set is the all-online-processors mask itself
takes the broadcast path unconditionally — the trace is exactly one
invocation of the chosen broadcast backend, with no membership check, no pin
and no local execution — even when the mask is a single processor. -/
theorem C4_online_mask_always_broadcasts (cmask : Finset ℕ) (useIpi : Bool)
    (cpuid asid start size stride : ℕ) (h : cmask ≠ ∅) :
    __flush_tlb_range cmask true useIpi cpuid asid start size stride =
      (if useIpi then [DispatchEvent.ipiBroadcast cmask asid start size stride]
       else sbi_remote_sfence_vma_asid cmask start size asid) ∧
    ∀ e ∈ __flush_tlb_range cmask true useIpi cpuid asid start size stride,
      isBroadcastEvent e = true ∧ isPinEvent e = false := by
  have htrace : __flush_tlb_range cmask true useIpi cpuid asid start size stride =
      (if useIpi then [DispatchEvent.ipiBroadcast cmask asid start size stride]
       else sbi_remote_sfence_vma_asid cmask start size asid) := by
    unfold __flush_tlb_range
    rw [if_neg h]
    simp
  refine ⟨htrace, ?_⟩
  rw [htrace]
  intro e he
  cases useIpi with
  | false =>
      simp only [if_neg Bool.false_ne_true] at he
      unfold sbi_remote_sfence_vma_asid at he
      by_cases hasid : asid = FLUSH_TLB_NO_ASID
      · rw [if_pos hasid] at he
        simp only [List.mem_singleton] at he
        subst he; exact ⟨rfl, rfl⟩
      · rw [if_neg hasid] at he
        simp only [List.mem_singleton] at he
        subst he; exact ⟨rfl, rfl⟩
  | true =>
      simp only [if_pos] at he
      simp only [List.mem_singleton] at he
      subst he; exact ⟨rfl, rfl⟩

/-- Witness for C4: with a single online processor (mask = set containing
only processor 0, passed as the online mask) the broadcast backend is still
invoked. -/
theorem C4_online_mask_always_broadcasts_witness :
    ({0} : Finset ℕ) ≠ ∅ ∧
    (__flush_tlb_range {0} true true 0 7 0 4096 4096 =
      (if true then [DispatchEvent.ipiBroadcast {0} 7 0 4096 4096]
       else sbi_remote_sfence_vma_asid {0} 0 4096 7) ∧
     ∀ e ∈ __flush_tlb_range {0} true true 0 7 0 4096 4096,
       isBroadcastEvent e = true ∧ isPinEvent e = false) :=
  ⟨by decide, C4_online_mask_always_broadcasts {0} true 0 7 0 4096 4096 (by decide)⟩

/-- C7: every dispatch that reaches the firmware-mediated backend (useIpi
false, broadcast required) issues the ASID-aware firmware call exactly when
the process-wide ASID allocator is enabled and the ASID-agnostic firmware
call exactly when it is not, given that asid_mask is below the no-ASID
sentinel (the hardware ASID field is at most 16 bits). -/
theorem C7_firmware_variant_selection (cmask : Finset ℕ) (isOnlineMask : Bool)
    (cpuid start size stride : ℕ) (use_asid_allocator : Bool) (asid_mask context_id : ℕ)
    (hmask : asid_mask < FLUSH_TLB_NO_ASID) (hne : cmask ≠ ∅)
    (hbcast : isOnlineMask = true ∨ cmask.erase cpuid ≠ ∅) :
    __flush_tlb_range cmask isOnlineMask false cpuid
        (get_mm_asid use_asid_allocator asid_mask context_id) start size stride =
      (if isOnlineMask then [] else [DispatchEvent.pinGet cpuid]) ++
      (if use_asid_allocator then
        [DispatchEvent.sbiAsid cmask start size (context_id &&& asid_mask)]
      else
        [DispatchEvent.sbiNoAsid cmask start size]) ++
      (if isOnlineMask then [] else [DispatchEvent.pinPut]) := by
  unfold __flush_tlb_range
  rw [if_neg hne]
  have hb : (if isOnlineMask then true else decide (cmask.erase cpuid ≠ ∅)) = true := by
    cases isOnlineMask with
    | true => rfl
    | false =>
        rcases hbcast with hcontra | hother
        · exact absurd hcontra (by simp)
        · simp [hother]
  rw [hb]
  have hsbi : sbi_remote_sfence_vma_asid cmask start size
      (get_mm_asid use_asid_allocator asid_mask context_id) =
      (if use_asid_allocator then
        [DispatchEvent.sbiAsid cmask start size (context_id &&& asid_mask)]
      else
        [DispatchEvent.sbiNoAsid cmask start size]) := by
    cases use_asid_allocator with
    | false =>
        unfold get_mm_asid sbi_remote_sfence_vma_asid
        simp
    | true =>
        unfold get_mm_asid sbi_remote_sfence_vma_asid
        have hlt : context_id &&& asid_mask < FLUSH_TLB_NO_ASID :=
          Nat.lt_of_le_of_lt Nat.and_le_right hmask
        simp [Nat.ne_of_lt hlt]
  simp [hsbi]

/-- Witness for C7: with the allocator enabled and a 16-bit mask the
ASID-aware firmware call is issued for context id 7. -/
theorem C7_firmware_variant_selection_witness :
    (65535 < FLUSH_TLB_NO_ASID ∧ ({0, 2} : Finset ℕ) ≠ ∅ ∧
     (true = true ∨ ({0, 2} : Finset ℕ).erase 0 ≠ ∅)) ∧
    __flush_tlb_range {0, 2} true false 0 (get_mm_asid true 65535 7) 0 8192 4096 =
      (if true then [] else [DispatchEvent.pinGet 0]) ++
      (if true then [DispatchEvent.sbiAsid {0, 2} 0 8192 (7 &&& 65535)]
       else [DispatchEvent.sbiNoAsid {0, 2} 0 8192]) ++
      (if true then [] else [DispatchEvent.pinPut]) :=
  ⟨⟨by decide, by decide, Or.inl rfl⟩,
   C7_firmware_variant_selection {0, 2} true 0 0 8192 4096 true 65535 7
     (by decide) (by decide) (Or.inl rfl)⟩

/-- Trace shape of a dispatch whose caller passed the online mask itself:
exactly the chosen broadcast backend invocation. -/
theorem dispatch_online_trace (cmask : Finset ℕ) (useIpi : Bool)
    (cpuid asid start size stride : ℕ) (h : cmask ≠ ∅) :
    __flush_tlb_range cmask true useIpi cpuid asid start size stride =
      (if useIpi then [DispatchEvent.ipiBroadcast cmask asid start size stride]
       else sbi_remote_sfence_vma_asid cmask start size asid) := by
  unfold __flush_tlb_range
  rw [if_neg h]
  simp

/-- Trace shape of a dispatch whose caller passed a set distinct from the
online mask: the pin, then the broadcast decision's outcome, then the
unpin. -/
theorem dispatch_offline_trace (cmask : Finset ℕ) (useIpi : Bool)
    (cpuid asid start size stride : ℕ) (h : cmask ≠ ∅) :
    __flush_tlb_range cmask false useIpi cpuid asid start size stride =
      DispatchEvent.pinGet cpuid ::
        ((if decide (cmask.erase cpuid ≠ ∅) then
            (if useIpi then [DispatchEvent.ipiBroadcast cmask asid start size stride]
             else sbi_remote_sfence_vma_asid cmask start size asid)
          else [DispatchEvent.localRange start size stride asid]) ++
         [DispatchEvent.pinPut]) := by
  unfold __flush_tlb_range
  rw [if_neg h]
  simp

/-- C8 counterexample: a dispatch with target set containing processors 0 and
1 called from processor 0 (target set distinct from the online-mask object)
acquires the pin, invokes the signal broadcast backend, and only then
releases the pin: the broadcast backend runs while the pin is held, so the
pin is not released before the blocking broadcast call as claimed. -/
theorem C8_pin_covers_broadcast_counterexample :
    __flush_tlb_range {0, 1} false true 0 7 0 8192 4096 =
      [DispatchEvent.pinGet 0, DispatchEvent.ipiBroadcast {0, 1} 7 0 8192 4096,
       DispatchEvent.pinPut] ∧
    pinnedBroadcastCount false (__flush_tlb_range {0, 1} false true 0 7 0 8192 4096) = 1 := by
  constructor
  · decide
  · decide

/-- C8 (amended): the scoped pin is taken exactly when the target set is not
the all-online mask; it then covers the broadcast decision, any local-only
execution and also any broadcast backend invocation, being released only as
the very last step of the dispatch — every broadcast backend call of such a
dispatch happens while the pin is held.  When the target set is the
all-online mask no pin is taken at all. -/
theorem C8_pin_scope_amended (cmask : Finset ℕ) (useIpi : Bool)
    (cpuid asid start size stride : ℕ) :
    (cmask ≠ ∅ →
      ∃ body, __flush_tlb_range cmask false useIpi cpuid asid start size stride =
          DispatchEvent.pinGet cpuid :: (body ++ [DispatchEvent.pinPut]) ∧
        ∀ e ∈ body, isPinEvent e = false) ∧
    (∀ e ∈ __flush_tlb_range cmask true useIpi cpuid asid start size stride,
      isPinEvent e = false) ∧
    pinnedBroadcastCount false (__flush_tlb_range cmask false useIpi cpuid asid start size stride) =
      ((__flush_tlb_range cmask false useIpi cpuid asid start size stride).filter
        (fun e => isBroadcastEvent e)).length := by
  refine ⟨?_, ?_, ?_⟩
  · intro hcm
    refine ⟨(if decide (cmask.erase cpuid ≠ ∅) then
              (if useIpi then [DispatchEvent.ipiBroadcast cmask asid start size stride]
               else sbi_remote_sfence_vma_asid cmask start size asid)
             else [DispatchEvent.localRange start size stride asid]), ?_, ?_⟩
    · rw [dispatch_offline_trace cmask useIpi cpuid asid start size stride hcm]
    · intro e he
      by_cases hb : decide (cmask.erase cpuid ≠ ∅) = true
      · rw [if_pos hb] at he
        cases useIpi with
        | true =>
            simp only [if_true, eq_self_iff_true, List.mem_singleton] at he
            subst he; rfl
        | false =>
            simp only [Bool.false_eq_true, if_false] at he
            unfold sbi_remote_sfence_vma_asid at he
            by_cases ha : asid = FLUSH_TLB_NO_ASID
            · rw [if_pos ha] at he
              simp only [List.mem_singleton] at he; subst he; rfl
            · rw [if_neg ha] at he
              simp only [List.mem_singleton] at he; subst he; rfl
      · rw [if_neg hb] at he
        simp only [List.mem_singleton] at he; subst he; rfl
  · intro e he
    by_cases hcm : cmask = ∅
    · unfold __flush_tlb_range at he
      rw [if_pos hcm] at he
      simp at he
    · rw [dispatch_online_trace cmask useIpi cpuid asid start size stride hcm] at he
      cases useIpi with
      | true =>
          simp only [if_true, eq_self_iff_true, List.mem_singleton] at he
          subst he; rfl
      | false =>
          simp only [Bool.false_eq_true, if_false] at he
          unfold sbi_remote_sfence_vma_asid at he
          by_cases ha : asid = FLUSH_TLB_NO_ASID
          · rw [if_pos ha] at he
            simp only [List.mem_singleton] at he; subst he; rfl
          · rw [if_neg ha] at he
            simp only [List.mem_singleton] at he; subst he; rfl
  · by_cases hcm : cmask = ∅
    · unfold __flush_tlb_range
      rw [if_pos hcm]
      rfl
    · rw [dispatch_offline_trace cmask useIpi cpuid asid start size stride hcm]
      by_cases hb : decide (cmask.erase cpuid ≠ ∅) = true
      · rw [if_pos hb]
        cases useIpi with
        | true => rfl
        | false =>
            unfold sbi_remote_sfence_vma_asid
            by_cases ha : asid = FLUSH_TLB_NO_ASID
            · rw [if_pos ha]
              simp only [Bool.false_eq_true, if_false]
              rfl
            · rw [if_neg ha]
              simp only [Bool.false_eq_true, if_false]
              rfl
      · rw [if_neg hb]
        rfl

/-- Witness for C8 (amended): the concrete broadcast dispatch of the
counterexample has the pin as its first event, the unpin as its last, and its
single broadcast invocation counted as pinned. -/
theorem C8_pin_scope_amended_witness :
    ({0, 1} : Finset ℕ) ≠ ∅ ∧
    (∃ body, __flush_tlb_range {0, 1} false true 0 7 0 8192 4096 =
        DispatchEvent.pinGet 0 :: (body ++ [DispatchEvent.pinPut]) ∧
      ∀ e ∈ body, isPinEvent e = false) :=
  ⟨by decide, (C8_pin_scope_amended {0, 1} true 0 7 0 8192 4096).1 (by decide)⟩

/-- arch_tlbflush_unmap_batch: the PendingBatch, a processor set accumulated
by deferred unmap operations. -/
structure ArchTlbflushUnmapBatch where
  cpumask : Finset ℕ
deriving DecidableEq

/-- arch_tlbbatch_add_pending: union the context's processor set into the
batch (cpumask_or). -/
def arch_tlbbatch_add_pending (batch : ArchTlbflushUnmapBatch)
    (mmCpumask : Finset ℕ) : ArchTlbflushUnmapBatch :=
  ⟨batch.cpumask ∪ mmCpumask⟩

/-- cpumask_clear on the batch: unconditionally resets the set to empty. -/
def cpumask_clear (batch : ArchTlbflushUnmapBatch) : ArchTlbflushUnmapBatch :=
  ⟨∅⟩

/-- arch_tlbbatch_flush: dispatch over the accumulated set with start 0, the
whole-address-space size sentinel, base page stride and the no-ASID
identifier, then clear the batch.  Returns the dispatch trace and the final
batch. -/
def arch_tlbbatch_flush (cpuid : ℕ) (useIpi : Bool)
    (batch : ArchTlbflushUnmapBatch) : List DispatchEvent × ArchTlbflushUnmapBatch :=
  (__flush_tlb_range batch.cpumask false useIpi cpuid FLUSH_TLB_NO_ASID 0
      FLUSH_TLB_MAX_SIZE PAGE_SIZE,
   cpumask_clear batch)

/-- The two shared-state steps of arch_tlbbatch_flush (the dispatch reading
batch->cpumask, then cpumask_clear) interleaved with one concurrent
arch_tlbbatch_add_pending landing between them.  Returns the processor set
the dispatch targeted and the batch left behind. -/
def arch_tlbbatch_flush_racing_accumulation (batch : ArchTlbflushUnmapBatch)
    (racingMm : Finset ℕ) : Finset ℕ × ArchTlbflushUnmapBatch :=
  (batch.cpumask, cpumask_clear (arch_tlbbatch_add_pending batch racingMm))

/-- C6 counterexample: flushing a batch accumulated from a context whose
identifier is 7 (allocator enabled, 16-bit mask) dispatches with the no-ASID
sentinel, not with the context's identifier 7; and an accumulation of
processor 5 that races between the flush's read of the batch and the clear
is neither part of the dispatched target set nor present in the batch
afterwards, so it is dropped rather than included or preserved. -/
theorem C6_batch_flush_counterexample :
    (arch_tlbbatch_flush 0 true (arch_tlbbatch_add_pending ⟨∅⟩ {0, 2})).1 =
      [DispatchEvent.pinGet 0,
       DispatchEvent.ipiBroadcast {0, 2} FLUSH_TLB_NO_ASID 0 FLUSH_TLB_MAX_SIZE PAGE_SIZE,
       DispatchEvent.pinPut] ∧
    get_mm_asid true 65535 7 = 7 ∧
    FLUSH_TLB_NO_ASID ≠ 7 ∧
    (5 ∉ (arch_tlbbatch_flush_racing_accumulation ⟨{0, 2}⟩ {5}).1 ∧
     (arch_tlbbatch_flush_racing_accumulation ⟨{0, 2}⟩ {5}).2.cpumask = ∅) := by
  refine ⟨by decide, by decide, by decide, by decide, by decide⟩

/-- Every event of a batch flush carries the batch parameters: the whole
accumulated set as target, the no-ASID identifier, start 0, the
whole-address-space size sentinel and base page stride. -/
def usesBatchParams (targets : Finset ℕ) : DispatchEvent → Prop
  | DispatchEvent.pinGet _ => True
  | DispatchEvent.pinPut => True
  | DispatchEvent.ipiBroadcast t a s sz st =>
      t = targets ∧ a = FLUSH_TLB_NO_ASID ∧ s = 0 ∧ sz = FLUSH_TLB_MAX_SIZE ∧ st = PAGE_SIZE
  | DispatchEvent.sbiAsid _ _ _ _ => False
  | DispatchEvent.sbiNoAsid t s sz => t = targets ∧ s = 0 ∧ sz = FLUSH_TLB_MAX_SIZE
  | DispatchEvent.localRange s sz st a =>
      s = 0 ∧ sz = FLUSH_TLB_MAX_SIZE ∧ st = PAGE_SIZE ∧ a = FLUSH_TLB_NO_ASID

/-- C6 (amended): the batched-invalidation flush trigger performs a full
dispatch over the accumulated PendingBatch processor set using the
whole-address-space sentinel and the no-ASID (global) identifier — never an
ASID-aware firmware call — and then unconditionally clears the PendingBatch;
the clear is not atomic with respect to accumulations: one racing between
the dispatch's read and the clear targets only the old set and leaves an
empty batch. -/
theorem C6_batch_flush_amended (cpuid : ℕ) (useIpi : Bool)
    (batch : ArchTlbflushUnmapBatch) :
    (∀ e ∈ (arch_tlbbatch_flush cpuid useIpi batch).1, usesBatchParams batch.cpumask e) ∧
    (arch_tlbbatch_flush cpuid useIpi batch).2.cpumask = ∅ ∧
    (∀ racingMm : Finset ℕ,
      (arch_tlbbatch_flush_racing_accumulation batch racingMm).1 = batch.cpumask ∧
      (arch_tlbbatch_flush_racing_accumulation batch racingMm).2.cpumask = ∅) := by
  refine ⟨?_, rfl, fun racingMm => ⟨rfl, rfl⟩⟩
  intro e he
  unfold arch_tlbbatch_flush at he
  simp only at he
  by_cases hcm : batch.cpumask = ∅
  · unfold __flush_tlb_range at he
    rw [if_pos hcm] at he
    simp at he
  · rw [dispatch_offline_trace batch.cpumask useIpi cpuid FLUSH_TLB_NO_ASID 0
        FLUSH_TLB_MAX_SIZE PAGE_SIZE hcm] at he
    simp only [List.mem_cons, List.mem_append, List.mem_singleton] at he
    rcases he with he | he | he
    · subst he; trivial
    · by_cases hb : decide (batch.cpumask.erase cpuid ≠ ∅) = true
      · rw [if_pos hb] at he
        cases useIpi with
        | true =>
            simp only [if_true, eq_self_iff_true, List.mem_singleton] at he
            subst he
            exact ⟨rfl, rfl, rfl, rfl, rfl⟩
        | false =>
            simp only [Bool.false_eq_true, if_false] at he
            unfold sbi_remote_sfence_vma_asid at he
            rw [if_pos rfl] at he
            simp only [List.mem_singleton] at he
            subst he
            exact ⟨rfl, rfl, rfl⟩
      · rw [if_neg hb] at he
        simp only [List.mem_singleton] at he
        subst he
        exact ⟨rfl, rfl, rfl, rfl⟩
    · rcases he with he | he
      · subst he; trivial
      · simp at he

/-- Witness for C6 (amended) at a concrete accumulated batch. -/
theorem C6_batch_flush_amended_witness :
    (∀ e ∈ (arch_tlbbatch_flush 0 true ⟨{0, 2}⟩).1, usesBatchParams {0, 2} e) ∧
    (arch_tlbbatch_flush 0 true ⟨{0, 2}⟩).2.cpumask = ∅ ∧
    (∀ racingMm : Finset ℕ,
      (arch_tlbbatch_flush_racing_accumulation ⟨{0, 2}⟩ racingMm).1 = ({0, 2} : Finset ℕ) ∧
      (arch_tlbbatch_flush_racing_accumulation ⟨{0, 2}⟩ racingMm).2.cpumask = ∅) :=
  C6_batch_flush_amended 0 true ⟨{0, 2}⟩

/-- The stride selection of flush_tlb_range: base page size for a non-huge
area; for a huge area under Svnapot, the descending cascade
PGDIR_SIZE, P4D_SIZE, PUD_SIZE, PMD_SIZE with base-page fallback; without
Svnapot the huge page size itself.  The four level sizes are configuration
constants (they depend on the paging mode), passed here as parameters. -/
def flush_tlb_range_stride_size (isHuge : Bool) (hugeSize : ℕ) (hasSvnapot : Bool)
    (pgdirSize p4dSize pudSize pmdSize : ℕ) : ℕ :=
  if !isHuge then
    PAGE_SIZE
  else if hasSvnapot then
    if hugeSize ≥ pgdirSize then pgdirSize
    else if hugeSize ≥ p4dSize then p4dSize
    else if hugeSize ≥ pudSize then pudSize
    else if hugeSize ≥ pmdSize then pmdSize
    else PAGE_SIZE
  else hugeSize

/-- flush_tlb_range: derive the stride from the area, then dispatch over the
context's processor set (a set distinct from the online-mask object) with the
context's identifier and the byte length of the range. -/
def flush_tlb_range (mmCpumask : Finset ℕ) (useIpi : Bool) (cpuid : ℕ)
    (use_asid_allocator : Bool) (asid_mask context_id : ℕ) (start e : ℕ)
    (isHuge : Bool) (hugeSize : ℕ) (hasSvnapot : Bool)
    (pgdirSize p4dSize pudSize pmdSize : ℕ) : List DispatchEvent :=
  __flush_tlb_range mmCpumask false useIpi cpuid
    (get_mm_asid use_asid_allocator asid_mask context_id) start (usub e start)
    (flush_tlb_range_stride_size isHuge hugeSize hasSvnapot
      pgdirSize p4dSize pudSize pmdSize)

/-- C5: a non-huge area always gets the base page stride; a huge area without
the NAPOT constraint gets the huge page size itself; a huge area under the
NAPOT constraint gets, whenever some block of the descending list
[pgdir, p4d, pud, pmd] fits, the largest listed block size not exceeding the
huge page size, and the base page size when even the smallest listed block
does not fit.  The hypotheses state that the configuration's level sizes
descend. -/
theorem C5_stride_selection (hugeSize pgdirSize p4dSize pudSize pmdSize : ℕ)
    (h1 : pmdSize ≤ pudSize) (h2 : pudSize ≤ p4dSize) (h3 : p4dSize ≤ pgdirSize) :
    (∀ hasSvnapot : Bool,
      flush_tlb_range_stride_size false hugeSize hasSvnapot
        pgdirSize p4dSize pudSize pmdSize = PAGE_SIZE) ∧
    flush_tlb_range_stride_size true hugeSize false
        pgdirSize p4dSize pudSize pmdSize = hugeSize ∧
    (pmdSize ≤ hugeSize →
      flush_tlb_range_stride_size true hugeSize true pgdirSize p4dSize pudSize pmdSize
          ∈ [pgdirSize, p4dSize, pudSize, pmdSize] ∧
      flush_tlb_range_stride_size true hugeSize true pgdirSize p4dSize pudSize pmdSize
          ≤ hugeSize ∧
      (∀ b ∈ [pgdirSize, p4dSize, pudSize, pmdSize], b ≤ hugeSize →
        b ≤ flush_tlb_range_stride_size true hugeSize true
              pgdirSize p4dSize pudSize pmdSize)) ∧
    (hugeSize < pmdSize →
      flush_tlb_range_stride_size true hugeSize true pgdirSize p4dSize pudSize pmdSize
        = PAGE_SIZE) := by
  refine ⟨fun hasSvnapot => rfl, rfl, ?_, ?_⟩
  · intro hfit
    unfold flush_tlb_range_stride_size
    simp only [Bool.not_true, Bool.false_eq_true, if_false, if_true, eq_self_iff_true]
    split_ifs with ha hb hc
    · refine ⟨by simp, ha, ?_⟩
      intro b hmem hle
      simp only [List.mem_cons, List.not_mem_nil, or_false] at hmem
      rcases hmem with h | h | h | h <;> omega
    · refine ⟨by simp, hb, ?_⟩
      intro b hmem hle
      simp only [List.mem_cons, List.not_mem_nil, or_false] at hmem
      rcases hmem with h | h | h | h <;> omega
    · refine ⟨by simp, hc, ?_⟩
      intro b hmem hle
      simp only [List.mem_cons, List.not_mem_nil, or_false] at hmem
      rcases hmem with h | h | h | h <;> omega
    · refine ⟨by simp, hfit, ?_⟩
      intro b hmem hle
      simp only [List.mem_cons, List.not_mem_nil, or_false] at hmem
      rcases hmem with h | h | h | h <;> omega
  · intro hsmall
    unfold flush_tlb_range_stride_size
    simp only [Bool.not_true, Bool.false_eq_true, if_false, if_true, eq_self_iff_true]
    split_ifs <;> omega

/-- Witness for C5 with the Sv57-style descending level sizes 2^48, 2^39,
2^30, 2^21 and a 2 MiB huge page: the selected NAPOT stride is the 2 MiB
block itself. -/
theorem C5_stride_selection_witness :
    (2 ^ 21 ≤ 2 ^ 30 ∧ (2 ^ 30 : ℕ) ≤ 2 ^ 39 ∧ (2 ^ 39 : ℕ) ≤ 2 ^ 48) ∧
    ((∀ hasSvnapot : Bool,
       flush_tlb_range_stride_size false (2 ^ 21) hasSvnapot
         (2 ^ 48) (2 ^ 39) (2 ^ 30) (2 ^ 21) = PAGE_SIZE) ∧
     flush_tlb_range_stride_size true (2 ^ 21) false
         (2 ^ 48) (2 ^ 39) (2 ^ 30) (2 ^ 21) = 2 ^ 21 ∧
     ((2 ^ 21 : ℕ) ≤ 2 ^ 21 →
       flush_tlb_range_stride_size true (2 ^ 21) true (2 ^ 48) (2 ^ 39) (2 ^ 30) (2 ^ 21)
           ∈ [2 ^ 48, 2 ^ 39, 2 ^ 30, 2 ^ 21] ∧
       flush_tlb_range_stride_size true (2 ^ 21) true (2 ^ 48) (2 ^ 39) (2 ^ 30) (2 ^ 21)
           ≤ 2 ^ 21 ∧
       (∀ b ∈ [(2 ^ 48 : ℕ), 2 ^ 39, 2 ^ 30, 2 ^ 21], b ≤ 2 ^ 21 →
         b ≤ flush_tlb_range_stride_size true (2 ^ 21) true
               (2 ^ 48) (2 ^ 39) (2 ^ 30) (2 ^ 21))) ∧
     ((2 ^ 21 : ℕ) < 2 ^ 21 →
       flush_tlb_range_stride_size true (2 ^ 21) true (2 ^ 48) (2 ^ 39) (2 ^ 30) (2 ^ 21)
         = PAGE_SIZE)) :=
  ⟨⟨by norm_num, by norm_num, by norm_num⟩,
   C5_stride_selection (2 ^ 21) (2 ^ 48) (2 ^ 39) (2 ^ 30) (2 ^ 21)
     (by norm_num) (by norm_num) (by norm_num)⟩

/-- The three Smokewagon control registers written by the fill routine. -/
inductive Csr where
  | smeh
  | smel
  | smcir
deriving DecidableEq

/-- SMEH_VPN_SHIFT: bit offset of the virtual page number in SMEH. -/
def SMEH_VPN_SHIFT : ℕ := 19

/-- SMEH_4KB_PAGE: the 4 KiB page-size tag bit of SMEH (1 << 16). -/
def SMEH_4KB_PAGE : ℕ := 65536

/-- SMEL_CACHEABLE: 1 << 62. -/
def SMEL_CACHEABLE : ℕ := 4611686018427387904

/-- SMEL_BUFFERABLE: 1 << 61. -/
def SMEL_BUFFERABLE : ℕ := 2305843009213693952

/-- SMEL_SHAREABLE: 1 << 60. -/
def SMEL_SHAREABLE : ℕ := 1152921504606846976

/-- SMEL_TRUSTABLE: 1 << 59. -/
def SMEL_TRUSTABLE : ℕ := 576460752303423488

/-- SMEL_PFN_SHIFT: bit offset of the physical frame number in SMEL. -/
def SMEL_PFN_SHIFT : ℕ := 10

/-- SMEL_VALID: 1 << 0. -/
def SMEL_VALID : ℕ := 1

/-- SMCIR_TLBWR: the commit-write command (1 << 28). -/
def SMCIR_TLBWR : ℕ := 268435456

/-- GENMASK(h, l): the mask of bits h down to l. -/
def GENMASK (h l : ℕ) : ℕ :=
  (2 ^ (h + 1) - 1) - (2 ^ l - 1)

/-- smokewagon_load_tlb: build the match descriptor (SMEH) from the context
identifier, the 4 KiB page tag and the shifted virtual page number, build the
entry descriptor (SMEL) from the fixed attribute bits, the shifted physical
frame number and the permission bits masked out of the page-table entry, and
write SMEH, then SMEL, then the commit command to SMCIR.  The physical frame
number `pfn` is resolved by the fault path (swp_offset_pfn of the pte, whose
decoding lives outside src/) and is passed in here, as is the raw pte value
`orig_pte`. -/
def smokewagon_load_tlb (address : ℕ) (use_asid_allocator : Bool)
    (asid_mask context_id orig_pte pfn : ℕ) : List (Csr × ℕ) :=
  [(Csr.smeh,
    get_mm_asid use_asid_allocator asid_mask context_id ||| SMEH_4KB_PAGE |||
      ((address >>> PAGE_SHIFT) <<< SMEH_VPN_SHIFT % W)),
   (Csr.smel,
    (SMEL_CACHEABLE ||| SMEL_BUFFERABLE ||| SMEL_SHAREABLE ||| SMEL_TRUSTABLE |||
        SMEL_VALID) ||| (pfn <<< SMEL_PFN_SHIFT % W) ||| (GENMASK 9 1 &&& orig_pte)),
   (Csr.smcir, SMCIR_TLBWR)]

/-- Four-element or-shuffle used to regroup the SMEL bit fields. -/
theorem lor_shuffle (x y z w : ℕ) :
    ((x ||| y) ||| z) ||| w = ((y ||| w) ||| z) ||| x := by
  apply Nat.eq_of_testBit_eq
  intro i
  simp only [Nat.testBit_lor]
  cases x.testBit i <;> cases y.testBit i <;> cases z.testBit i <;> cases w.testBit i <;> rfl

/-- C9: every invocation of smokewagon_load_tlb writes, in this order, the
match register SMEH with the context identifier or-ed with the 4 KiB
page-size tag and the virtual page number (the faulting address shifted right
by the page-offset width 12) shifted to bit 19; the entry register SMEL with
the fixed cacheable/bufferable/shareable/trustable/valid attribute bits or-ed
with the physical frame number at bit 10 and the permission bits masked out
of the page-table entry by the fixed mask 0x3FE; and then the commit command
to the control register SMCIR.  Under the hardware bounds on the identifier
mask and the frame number the two descriptors decompose additively into
their claimed bit fields. -/
theorem C9_smokewagon_fill (address asid_mask context_id orig_pte pfn : ℕ)
    (use_asid_allocator : Bool)
    (hmask : asid_mask < 2 ^ 16) (hpfn : pfn < 2 ^ 49) :
    smokewagon_load_tlb address use_asid_allocator asid_mask context_id orig_pte pfn =
      [(Csr.smeh,
        get_mm_asid use_asid_allocator asid_mask context_id ||| SMEH_4KB_PAGE |||
          (address / 2 ^ 12 * 2 ^ 19 % W)),
       (Csr.smel,
        (SMEL_CACHEABLE ||| SMEL_BUFFERABLE ||| SMEL_SHAREABLE ||| SMEL_TRUSTABLE |||
            SMEL_VALID) ||| (pfn * 2 ^ 10 % W) ||| (1022 &&& orig_pte)),
       (Csr.smcir, SMCIR_TLBWR)] ∧
    (use_asid_allocator = true →
      get_mm_asid use_asid_allocator asid_mask context_id ||| SMEH_4KB_PAGE |||
          (address / 2 ^ 12 * 2 ^ 19 % W) =
        2 ^ 19 * (address / 2 ^ 12 % 2 ^ 45) + 2 ^ 16 + (context_id &&& asid_mask)) ∧
    ((SMEL_CACHEABLE ||| SMEL_BUFFERABLE ||| SMEL_SHAREABLE ||| SMEL_TRUSTABLE |||
        SMEL_VALID) ||| (pfn * 2 ^ 10 % W) ||| (1022 &&& orig_pte) =
      2 ^ 62 + 2 ^ 61 + 2 ^ 60 + 2 ^ 59 + 2 ^ 10 * pfn + (1022 &&& orig_pte) + 1) := by
  have e16 : (2 : ℕ) ^ 16 = 65536 := by norm_num
  have e19 : (2 : ℕ) ^ 19 = 524288 := by norm_num
  have hpmod : pfn * 2 ^ 10 % W = 2 ^ 10 * pfn := by
    rw [Nat.mul_comm]
    apply Nat.mod_eq_of_lt
    have h1 : (2 : ℕ) ^ 10 * pfn ≤ 2 ^ 10 * (2 ^ 49 - 1) :=
      Nat.mul_le_mul_left _ (by omega)
    norm_num [W] at h1 ⊢
    omega
  refine ⟨?_, ?_, ?_⟩
  · have hg : GENMASK 9 1 = 1022 := by norm_num [GENMASK]
    simp only [smokewagon_load_tlb, PAGE_SHIFT, SMEH_VPN_SHIFT, SMEL_PFN_SHIFT,
      Nat.shiftRight_eq_div_pow, Nat.shiftLeft_eq, hg]
  · intro hflag
    subst hflag
    simp only [get_mm_asid, if_true]
    have hasid : context_id &&& asid_mask < 2 ^ 16 :=
      Nat.lt_of_le_of_lt Nat.and_le_right hmask
    have hp : address / 2 ^ 12 * 2 ^ 19 % W = 2 ^ 19 * (address / 2 ^ 12 % 2 ^ 45) := by
      rw [Nat.mul_comm (address / 2 ^ 12) (2 ^ 19),
        show W = 2 ^ 19 * 2 ^ 45 by norm_num [W], Nat.mul_mod_mul_left]
    rw [hp]
    have h1 : (context_id &&& asid_mask) ||| SMEH_4KB_PAGE =
        2 ^ 16 * 1 + (context_id &&& asid_mask) := by
      rw [show SMEH_4KB_PAGE = 2 ^ 16 * 1 by norm_num [SMEH_4KB_PAGE], Nat.lor_comm]
      exact (Nat.mul_add_lt_is_or hasid 1).symm
    rw [h1]
    have h2 : 2 ^ 16 * 1 + (context_id &&& asid_mask) < 2 ^ 19 := by omega
    rw [Nat.lor_comm, ← Nat.mul_add_lt_is_or h2 (address / 2 ^ 12 % 2 ^ 45)]
    omega
  · have hrle : 1022 &&& orig_pte ≤ 1022 := Nat.and_le_left
    have hreven : (1022 &&& orig_pte) % 2 = 0 := by
      have hbit : (1022 &&& orig_pte).testBit 0 = false := by
        rw [Nat.testBit_and]
        have : Nat.testBit 1022 0 = false := by decide
        rw [this]
        rfl
      rw [Nat.testBit_zero] at hbit
      simp only [decide_eq_false_iff_not] at hbit
      omega
    have hrsplit : 1022 &&& orig_pte = 2 ^ 1 * ((1022 &&& orig_pte) / 2) := by
      rw [pow_one]
      omega
    have hfix : SMEL_CACHEABLE ||| SMEL_BUFFERABLE ||| SMEL_SHAREABLE ||| SMEL_TRUSTABLE |||
        SMEL_VALID = (2 ^ 59 * 15) ||| 1 := by decide
    rw [hfix, hpmod,
      lor_shuffle (2 ^ 59 * 15) 1 (2 ^ 10 * pfn) (1022 &&& orig_pte)]
    have hr1 : 1 ||| (1022 &&& orig_pte) = (1022 &&& orig_pte) + 1 := by
      conv_lhs => rw [Nat.lor_comm, hrsplit]
      rw [← Nat.mul_add_lt_is_or (show (1 : ℕ) < 2 ^ 1 by norm_num) ((1022 &&& orig_pte) / 2)]
      omega
    rw [hr1]
    have h2 : (1022 &&& orig_pte) + 1 < 2 ^ 10 := by
      have : (2 : ℕ) ^ 10 = 1024 := by norm_num
      omega
    rw [Nat.lor_comm ((1022 &&& orig_pte) + 1) (2 ^ 10 * pfn),
      ← Nat.mul_add_lt_is_or h2 pfn]
    have h3 : 2 ^ 10 * pfn + ((1022 &&& orig_pte) + 1) < 2 ^ 59 := by
      have h1 : (2 : ℕ) ^ 10 * pfn ≤ 2 ^ 10 * (2 ^ 49 - 1) :=
        Nat.mul_le_mul_left _ (by omega)
      norm_num at h1 ⊢
      omega
    rw [Nat.lor_comm, ← Nat.mul_add_lt_is_or h3 15]
    have e59 : (2 : ℕ) ^ 59 * 15 = 2 ^ 62 + 2 ^ 61 + 2 ^ 60 + 2 ^ 59 := by norm_num
    omega

/-- Witness for C9 at a concrete fault: address 0x123456789, allocator on,
16-bit mask, context id 7, pte with permission bits 0x156, frame 123456. -/
theorem C9_smokewagon_fill_witness :
    ((65535 : ℕ) < 2 ^ 16 ∧ (123456 : ℕ) < 2 ^ 49) ∧
    (smokewagon_load_tlb 4886718345 true 65535 7 342 123456 =
      [(Csr.smeh,
        get_mm_asid true 65535 7 ||| SMEH_4KB_PAGE |||
          (4886718345 / 2 ^ 12 * 2 ^ 19 % W)),
       (Csr.smel,
        (SMEL_CACHEABLE ||| SMEL_BUFFERABLE ||| SMEL_SHAREABLE ||| SMEL_TRUSTABLE |||
            SMEL_VALID) ||| (123456 * 2 ^ 10 % W) ||| (1022 &&& 342)),
       (Csr.smcir, SMCIR_TLBWR)] ∧
     (true = true →
       get_mm_asid true 65535 7 ||| SMEH_4KB_PAGE ||| (4886718345 / 2 ^ 12 * 2 ^ 19 % W) =
         2 ^ 19 * (4886718345 / 2 ^ 12 % 2 ^ 45) + 2 ^ 16 + (7 &&& 65535)) ∧
     ((SMEL_CACHEABLE ||| SMEL_BUFFERABLE ||| SMEL_SHAREABLE ||| SMEL_TRUSTABLE |||
         SMEL_VALID) ||| (123456 * 2 ^ 10 % W) ||| (1022 &&& 342) =
       2 ^ 62 + 2 ^ 61 + 2 ^ 60 + 2 ^ 59 + 2 ^ 10 * 123456 + (1022 &&& 342) + 1)) :=
  ⟨⟨by decide, by decide⟩,
   C9_smokewagon_fill 4886718345 65535 7 342 123456 true (by decide) (by decide)⟩

/-- Witness for C3 at a concrete singleton dispatch from processor 3. -/
theorem C3_local_only_no_broadcast_witness :
    __flush_tlb_range {3} false true 3 7 0 8192 4096 =
      [DispatchEvent.pinGet 3, DispatchEvent.localRange 0 8192 4096 7,
       DispatchEvent.pinPut] ∧
    ∀ e ∈ __flush_tlb_range {3} false true 3 7 0 8192 4096,
      isBroadcastEvent e = false :=
  C3_local_only_no_broadcast true 3 7 0 8192 4096
